import Mathlib

/-
  Verification of the perp-dex-trading-aggr trading gateway core.

  Shallow embedding of the order executor (services/order_executor.py), the
  position tracker (services/position_tracker.py), the risk engine
  (services/risk_management.py) and the credential vault
  (services/account_manager.py).

  Modelling conventions:
  * Python floats are modelled as rationals (the claims under study are about
    exact arithmetic identities, never about rounding);
  * Python `None` becomes `Option`, and Python truthiness of an optional
    number (`if x:` is false for both `None` and `0`) is made explicit by
    `pyTruthy`;
  * awaited collaborator results (DB rows, connector responses, Redis-backed
    helper values) become explicit parameters of the embedded functions, so a
    method body acts as a pure function of its inputs and of the results of
    its awaited calls;
  * datetimes are abstracted to a `now : Nat` tick supplied by the caller;
  * Python exceptions become `Except` values; an uncaught `TypeError`
    (e.g. `float * None`) is a distinguished error constructor.
-/

namespace PerpDex

/-- Decidable equality for `Except`, needed to evaluate embedded outcomes. -/
instance {ε α : Type} [DecidableEq ε] [DecidableEq α] : DecidableEq (Except ε α) := fun x y =>
  match x, y with
  | .error a, .error b => decidable_of_iff (a = b) (by simp)
  | .error _, .ok _ => isFalse (by simp)
  | .ok _, .error _ => isFalse (by simp)
  | .ok a, .ok b => decidable_of_iff (a = b) (by simp)

/-- Python truthiness of an optional numeric value: `None` and `0` are falsy. -/
def pyTruthy (x : Option ℚ) : Bool :=
  match x with
  | none => false
  | some v => decide (v ≠ 0)

/-! ## Data model: enums (models/orders.py, models/positions.py) -/

/-- models/orders.py `OrderSide`. -/
inductive OrderSide
  | BUY
  | SELL
  deriving DecidableEq

/-- models/orders.py `OrderType`. -/
inductive OrderType
  | MARKET
  | LIMIT
  | STOP
  | STOP_LIMIT
  | TAKE_PROFIT
  | TAKE_PROFIT_LIMIT
  deriving DecidableEq

/-- models/orders.py `OrderStatus`. -/
inductive OrderStatus
  | NEW
  | PARTIALLY_FILLED
  | FILLED
  | CANCELED
  | REJECTED
  | EXPIRED
  | PENDING
  deriving DecidableEq

/-- models/orders.py `TimeInForce`. -/
inductive TimeInForce
  | GTC
  | IOC
  | FOK
  | GTT
  | POST_ONLY
  deriving DecidableEq

/-- models/positions.py `PositionSide`. -/
inductive PositionSide
  | LONG
  | SHORT
  deriving DecidableEq

/-- models/positions.py `PositionStatus`. -/
inductive PositionStatus
  | OPEN
  | CLOSING
  | CLOSED
  | LIQUIDATED
  deriving DecidableEq

/-! ## Order executor (services/order_executor.py) -/

/-- The error kinds raised by the executor. `pythonTypeError` models an
uncaught Python `TypeError` (for instance multiplying a float by `None`) and
`attributeError` an uncaught Python `AttributeError` (reading an attribute
that does not exist on a model class or instance). -/
inductive ExecError
  | orderExecutionError (msg : String)
  | orderNotFoundError (msg : String)
  | insufficientBalanceError (msg : String)
  | pythonTypeError (msg : String)
  | attributeError (msg : String)
  deriving DecidableEq

/-- services/order_executor.py `OrderRequest` dataclass. -/
structure OrderRequest where
  symbol : String
  side : OrderSide
  order_type : OrderType
  quantity : ℚ
  price : Option ℚ := none
  stop_price : Option ℚ := none
  time_in_force : TimeInForce := TimeInForce.GTC
  reduce_only : Bool := false
  post_only : Bool := false
  client_order_id : Option String := none
  deriving DecidableEq

/-- models/accounts.py `DexAccount`, restricted to the columns the services
read.  Note what is NOT here: the model has no `balance` attribute (its
cached balances are `total_balance`, `available_balance` and
`margin_balance`) and no `dex` attribute (the venue column is `dex_name`);
order_executor.py reads both nonexistent names, which raises
AttributeError at runtime. -/
structure DexAccount where
  id : ℕ
  account_id : ℕ
  dex_name : String
  account_name : String := ""
  is_testnet : Bool := false
  is_active : Bool := true
  total_balance : ℚ := 0
  available_balance : ℚ := 0
  margin_balance : ℚ := 0
  deriving DecidableEq

/-- The `Order` row as the executor mutates it (models/orders.py `Order`;
`executed_qty`, `avg_price` and `cancelled_at` are the attribute names the
executor assigns). -/
structure OrderRow where
  account_id : ℕ
  dex_account_id : ℕ
  symbol : String
  side : OrderSide
  order_type : OrderType
  quantity : ℚ
  price : Option ℚ := none
  stop_price : Option ℚ := none
  time_in_force : TimeInForce := TimeInForce.GTC
  status : OrderStatus
  reduce_only : Bool := false
  post_only : Bool := false
  client_order_id : Option String := none
  exchange_order_id : Option String := none
  executed_qty : ℚ := 0
  avg_price : ℚ := 0
  cancelled_at : Option ℕ := none
  error_message : Option String := none
  deriving DecidableEq

/-- services/order_executor.py `OrderResult` dataclass (timestamp omitted:
it is `datetime.utcnow()` wall-clock noise). -/
structure OrderResult where
  order_id : Option String
  status : OrderStatus
  filled_qty : ℚ := 0
  avg_price : ℚ := 0
  fee : ℚ := 0
  message : Option String := none
  deriving DecidableEq

/-- The dictionary returned by `connector.place_order`: the executor reads
`orderId` via `.get(...)` (default `None`) and `executedQty` / `avgPrice`
via `.get(..., 0)`.  The `status` key is part of the response but the
executor never reads it. -/
structure DexAck where
  orderId : Option String := none
  status : String := "NEW"
  executedQty : Option ℚ := none
  avgPrice : Option ℚ := none
  deriving DecidableEq

/-- The required-balance estimate at the top of `OrderExecutor._validate_order`
(source lines 420-423): MARKET orders use `quantity * (price or 0)`; any
other kind evaluates `request.quantity * request.price`, which is a Python
`TypeError` when the price is `None`. -/
def requiredBalanceEstimate (request : OrderRequest) : Except ExecError ℚ :=
  match request.order_type, request.price with
  | OrderType.MARKET, p => Except.ok (request.quantity * (p.getD 0))
  | _, none =>
      Except.error (ExecError.pythonTypeError "unsupported operand type for *: float and NoneType")
  | _, some p => Except.ok (request.quantity * p)

/-- `OrderExecutor._validate_order` (source lines 417-435), faithfully in
source order: the required-balance estimate runs first, so a non-MARKET
request with `price=None` raises a Python `TypeError` before anything else;
any request that survives the estimate then reaches the comparison
`account.balance < required_balance` (line 425), and `DexAccount` has no
`balance` attribute (models/accounts.py has only `total_balance`,
`available_balance`, `margin_balance`), so the read raises AttributeError.
The LIMIT missing-price check (line 431) and the STOP/STOP_LIMIT
missing-stop-price check (line 434) sit after that line and are
unreachable dead code, as is the `InsufficientBalance` branch. -/
def validate_order (account : DexAccount) (request : OrderRequest) : Except ExecError Unit :=
  match requiredBalanceEstimate request with
  | Except.error e => Except.error e
  | Except.ok _ =>
      Except.error (ExecError.attributeError "DexAccount object has no attribute balance")

/-- The PENDING `Order` row `place_order` inserts before dispatch
(source lines 90-104). -/
def mkPendingOrder (account : DexAccount) (request : OrderRequest) : OrderRow :=
  { account_id := account.account_id
    dex_account_id := account.id
    symbol := request.symbol
    side := request.side
    order_type := request.order_type
    quantity := request.quantity
    price := request.price
    stop_price := request.stop_price
    time_in_force := request.time_in_force
    status := OrderStatus.PENDING
    reduce_only := request.reduce_only
    post_only := request.post_only
    client_order_id := request.client_order_id }

/-- Outcome of one `place_order` call: the surfaced result or error, the
committed order row (`none` when everything was rolled back), and whether
`connector.place_order` was actually invoked. -/
structure PlaceOutcome where
  result : Except ExecError OrderResult
  persisted : Option OrderRow
  dispatched : Bool
  deriving DecidableEq

/-- `OrderExecutor._get_account` (source lines 384-395).  The query filters
on `DexAccount.dex == dex`, but the mapped column is `dex_name`
(models/accounts.py), so building the query raises AttributeError before
any row is consulted — for every input. -/
def get_account (account_id : ℕ) (dex : String) : Except ExecError (Option DexAccount) :=
  Except.error (ExecError.attributeError "type object DexAccount has no attribute dex")

/-- `OrderExecutor.place_order` (source lines 66-152) as a function of the
connector response (`ack`).  The first step, `_get_account`, raises
AttributeError at the `DexAccount.dex` query for every input, and the outer
handler rolls back and re-raises, so every invocation fails before
validation, dispatch, or persistence.  The remainder of the body is
modelled from the source text but is unreachable: were it reached,
validation would in turn raise AttributeError at `account.balance`, and
the ack branch (lines 124-141) assigns `order.status = OrderStatus.NEW`
unconditionally, never reading the response's `status` key.  The
in-memory `_active_orders` cache insert is omitted here (modelled for
`cancel_order`, the only claim that mentions the cache). -/
def place_order (account_id : ℕ) (dex : String) (request : OrderRequest)
    (ack : Except String DexAck) : PlaceOutcome :=
  match get_account account_id dex with
  | Except.error e => { result := Except.error e, persisted := none, dispatched := false }
  | Except.ok none =>
      { result := Except.error (ExecError.orderExecutionError "Account not found")
        persisted := none
        dispatched := false }
  | Except.ok (some acct) =>
    match validate_order acct request with
    | Except.error e => { result := Except.error e, persisted := none, dispatched := false }
    | Except.ok _ =>
      let order := mkPendingOrder acct request
      match ack with
      | Except.error emsg =>
          { result := Except.error (ExecError.orderExecutionError ("Failed to place order: " ++ emsg))
            persisted := some { order with status := OrderStatus.REJECTED, error_message := some emsg }
            dispatched := true }
      | Except.ok resp =>
          let updated := { order with
            exchange_order_id := resp.orderId
            status := OrderStatus.NEW
            executed_qty := resp.executedQty.getD 0
            avg_price := resp.avgPrice.getD 0 }
          { result := Except.ok
              { order_id := updated.exchange_order_id
                status := OrderStatus.NEW
                filled_qty := updated.executed_qty
                avg_price := updated.avg_price }
            persisted := some updated
            dispatched := true }

/-- Outcome of one `cancel_order` call: surfaced result, committed row,
whether `connector.cancel_order` ran, and the `_active_orders` cache keys
after the call. -/
structure CancelOutcome where
  result : Except ExecError Bool
  persisted : Option OrderRow
  dispatched : Bool
  active_cache : List String
  deriving DecidableEq

/-- `OrderExecutor.cancel_order` (source lines 154-192) as a function of the
looked-up order row and of the connector result.  There is no terminal-status
check anywhere: whenever a row is found the cancel is dispatched, and if the
connector returns without raising the row is set to CANCELED with a
timestamp and dropped from the cache, whatever the connector's boolean was.
Every raised error is wrapped by the outer handler into
`OrderExecutionError("Failed to cancel order: ...")`. -/
def cancel_order (order : Option OrderRow) (connectorResult : Except String Bool)
    (cache : List String) (order_id : String) (now : ℕ) : CancelOutcome :=
  match order with
  | none =>
      { result := Except.error (ExecError.orderExecutionError "Failed to cancel order: Order not found")
        persisted := none
        dispatched := false
        active_cache := cache }
  | some o =>
    match connectorResult with
    | Except.error emsg =>
        { result := Except.error (ExecError.orderExecutionError ("Failed to cancel order: " ++ emsg))
          persisted := none
          dispatched := true
          active_cache := cache }
    | Except.ok b =>
        { result := Except.ok b
          persisted := some { o with status := OrderStatus.CANCELED, cancelled_at := some now }
          dispatched := true
          active_cache := cache.filter (fun k => k != order_id) }

/-- The environment one placement runs against: the account id, venue tag,
and the connector's response to each request.  Each `place_order` call
builds its own connector and the source never threads state from one
placement into the next, so one request's outcome is a function of the
request and this environment alone. -/
structure ExecEnv where
  account_id : ℕ
  dex : String
  adapter : OrderRequest → Except String DexAck

/-- One placement through the environment. -/
def place_order_via (env : ExecEnv) (request : OrderRequest) : PlaceOutcome :=
  place_order env.account_id env.dex request (env.adapter request)

/-- The `OrderResult` a failed placement is converted to inside
`batch_place_orders` (source lines 459-465): `str(e)` as message. -/
def execErrorMessage : ExecError → String
  | ExecError.orderExecutionError m => m
  | ExecError.orderNotFoundError m => m
  | ExecError.insufficientBalanceError m => m
  | ExecError.pythonTypeError m => m
  | ExecError.attributeError m => m

/-- Rejected placeholder result appended when a placement raises
(source lines 461-465). -/
def rejectedResult (e : ExecError) : OrderResult :=
  { order_id := some ""
    status := OrderStatus.REJECTED
    message := some (execErrorMessage e) }

/-- The per-request outcome: the placement's result, or the REJECTED
placeholder when the placement raised. -/
def single_order_outcome (env : ExecEnv) (request : OrderRequest) : OrderResult :=
  match (place_order_via env request).result with
  | Except.ok res => res
  | Except.error e => rejectedResult e

/-- `OrderExecutor.batch_place_orders` (source lines 449-466): iterate the
requests in order, placing each inside its own try/except, so one failure
never aborts the rest. -/
def batch_place_orders (env : ExecEnv) (orders : List OrderRequest) : List OrderResult :=
  orders.map (single_order_outcome env)

/-- Specification-side reference for the batch claim: place the requests one
by one, each alone in sequence, collecting each order's own outcome — the
spec's "placing them one by one with respect to each order's outcome". -/
def place_one_by_one (env : ExecEnv) (orders : List OrderRequest) : List OrderResult :=
  match orders with
  | [] => []
  | r :: rest => single_order_outcome env r :: place_one_by_one env rest

/-! ## Position tracker (services/position_tracker.py) -/

/-- The `Position` row as the tracker reads and mutates it
(models/positions.py `Position`).  `quantity`, `entry_price` and
`mark_price` are numeric columns (the tracker always writes numbers into
them); `liquidation_price` and the timestamps are nullable. -/
structure PositionRow where
  symbol : String
  side : PositionSide
  quantity : ℚ
  initial_quantity : ℚ
  entry_price : ℚ
  mark_price : ℚ
  liquidation_price : Option ℚ := none
  unrealized_pnl : ℚ := 0
  realized_pnl : ℚ := 0
  margin : ℚ := 0
  status : PositionStatus
  opened_at : Option ℕ := none
  closed_at : Option ℕ := none
  updated_at : Option ℕ := none
  deriving DecidableEq

/-- services/position_tracker.py `PositionUpdate` dataclass. -/
structure PositionUpdate where
  symbol : String
  size_delta : ℚ := 0
  realized_pnl : ℚ := 0
  fees : ℚ := 0
  mark_price : Option ℚ := none
  liquidation_price : Option ℚ := none
  deriving DecidableEq

/-- `PositionTracker._calculate_unrealized_pnl` (source lines 438-447).
The source coalesces falsy (`None`/`0`) fields to `0` before the
arithmetic; on numeric columns that coalescing is the identity. -/
def calculate_unrealized_pnl (p : PositionRow) : ℚ :=
  match p.side with
  | PositionSide.LONG => (p.mark_price - p.entry_price) * p.quantity
  | PositionSide.SHORT => (p.entry_price - p.mark_price) * p.quantity

/-- The new position `update_position` creates when no OPEN row exists for
the symbol (source lines 159-175): side from the sign of the delta,
quantity its absolute value, entry and mark price `update.mark_price or 0`. -/
def create_position_from_update (u : PositionUpdate) (now : ℕ) : PositionRow :=
  { symbol := u.symbol
    side := if u.size_delta > 0 then PositionSide.LONG else PositionSide.SHORT
    quantity := |u.size_delta|
    initial_quantity := |u.size_delta|
    entry_price := u.mark_price.getD 0
    mark_price := u.mark_price.getD 0
    margin := 0
    status := PositionStatus.OPEN
    opened_at := some now }

/-- The Python errors the tracker raises: `pythonTypeError` models an
uncaught `TypeError` (an invalid keyword argument to a model constructor)
and `attributeError` an uncaught `AttributeError`. -/
inductive TrackerError
  | pythonTypeError (msg : String)
  | attributeError (msg : String)
  deriving DecidableEq

/-- The existing-position branch of `PositionTracker.update_position`
(source lines 176-192): the in-memory mutation of the loaded ORM object,
statement by statement — add the delta to the quantity; if the result is
exactly `0`, mark CLOSED with a closed timestamp (no same-sign or crossing
check, and no early stop); if the update carries a truthy mark price,
store it and recompute the unrealized PnL; if it carries a truthy
liquidation price, store it; finally accumulate the realized-PnL delta and
stamp `updated_at`.  The entry price is never recomputed.  These
mutations are only ever transient: the history append that follows them
raises before any commit (see `update_position`). -/
def update_existing_position (p : PositionRow) (u : PositionUpdate) (now : ℕ) : PositionRow :=
  let p1 := { p with quantity := p.quantity + u.size_delta }
  let p2 :=
    if p1.quantity = 0 then
      { p1 with status := PositionStatus.CLOSED, closed_at := some now }
    else p1
  let p3 :=
    if pyTruthy u.mark_price then
      let q := { p2 with mark_price := u.mark_price.getD 0 }
      { q with unrealized_pnl := calculate_unrealized_pnl q }
    else p2
  let p4 :=
    if pyTruthy u.liquidation_price then
      { p3 with liquidation_price := u.liquidation_price }
    else p3
  { p4 with realized_pnl := p4.realized_pnl + u.realized_pnl, updated_at := some now }

/-- Outcome of one `update_position` call: the surfaced result or raised
error, the committed row (`none` when rolled back), and the transient
state of the ORM Position object at the moment the call raised — discarded
by the session rollback and never visible outside the call. -/
structure UpdateOutcome where
  result : Except TrackerError PositionRow
  persisted : Option PositionRow
  in_memory : PositionRow
  deriving DecidableEq

/-- The `TypeError` raised by the history append of `update_position`
(source lines 195-206): `PositionHistory(position_id=..., size=...,
mark_price=..., unrealized_pnl=..., realized_pnl=..., margin=...,
extra_data=...)` passes `size`, `realized_pnl` and `margin`, none of which
is a mapped attribute of `PositionHistory` (models/positions.py has
`quantity`, `unrealized_pnl`, `margin_ratio`), so SQLAlchemy's declarative
constructor raises. -/
def position_history_kwargs_error : TrackerError :=
  TrackerError.pythonTypeError "size is an invalid keyword argument for PositionHistory"

/-- `PositionTracker.update_position` (source lines 135-211) as a function
of the looked-up OPEN position for (account, dex, symbol).  The in-memory
create-or-mutate step runs (lines 159-192), but the unconditional history
append that follows (lines 195-206) raises `TypeError` on every call —
before `session.commit()` at line 209 — so the session is rolled back:
nothing is ever persisted and the call never returns a row. -/
def update_position (existing : Option PositionRow) (u : PositionUpdate) (now : ℕ) :
    UpdateOutcome :=
  let row :=
    match existing with
    | none => create_position_from_update u now
    | some p => update_existing_position p u now
  { result := Except.error position_history_kwargs_error
    persisted := none
    in_memory := row }

/-- The `PositionInfo` projection fields the liquidation check reads
(services/position_tracker.py `PositionInfo`). -/
structure PositionInfo where
  symbol : String
  side : PositionSide
  size : ℚ
  entry_price : ℚ
  mark_price : ℚ
  liquidation_price : Option ℚ
  unrealized_pnl : ℚ
  realized_pnl : ℚ
  margin : ℚ
  status : PositionStatus
  deriving DecidableEq

/-- `PositionTracker._to_position_info` (source lines 449-468).  The
`float(x) if x else 0` coalescings are identities on numeric columns, but
on the nullable liquidation price the conversion turns a falsy value —
`None` or `0` — into `None`. -/
def to_position_info (p : PositionRow) : PositionInfo :=
  { symbol := p.symbol
    side := p.side
    size := p.quantity
    entry_price := p.entry_price
    mark_price := p.mark_price
    liquidation_price := if pyTruthy p.liquidation_price then p.liquidation_price else none
    unrealized_pnl := p.unrealized_pnl
    realized_pnl := p.realized_pnl
    margin := p.margin
    status := p.status }

/-- The shape of the dict `check_liquidation_risk` attempts to append for
an at-risk position (source lines 426-434).  Its construction never
completes: the third value, `float(pos.quantity)` at line 429, reads an
attribute that does not exist on `PositionInfo` (the dataclass field is
`size`), so no value of this shape is ever produced. -/
structure LiquidationRiskEntry where
  symbol : String
  side : PositionSide
  size : ℚ
  mark_price : ℚ
  liquidation_price : ℚ
  distance_pct : ℚ
  risk_level : String
  deriving DecidableEq

/-- The filter of the `check_liquidation_risk` loop for one position
(source lines 418-425): the liquidation price is truthy and the directional
distance percentage relative to the mark price is under 10.  Division is
total on ℚ; the Python source would raise ZeroDivisionError at
`mark_price = 0`, so theorems about this function restrict to nonzero mark
prices. -/
def at_risk_position (pos : PositionInfo) : Bool :=
  pyTruthy pos.liquidation_price &&
    decide ((match pos.side with
      | PositionSide.LONG => (pos.mark_price - pos.liquidation_price.getD 0) / pos.mark_price * 100
      | PositionSide.SHORT => (pos.liquidation_price.getD 0 - pos.mark_price) / pos.mark_price * 100)
      < 10)

/-- The `AttributeError` raised at source line 429: `pos.quantity` on a
`PositionInfo`, whose field is `size`. -/
def position_info_quantity_error : TrackerError :=
  TrackerError.attributeError "PositionInfo object has no attribute quantity"

/-- The `for pos in positions:` loop of `check_liquidation_risk` (source
lines 417-434): the first position passing the at-risk filter raises
AttributeError while building its entry (`pos.quantity` does not exist on
`PositionInfo`); if no position passes, the loop completes with the empty
list.  A non-empty result is impossible. -/
def check_liquidation_loop : List PositionInfo → Except TrackerError (List LiquidationRiskEntry)
  | [] => Except.ok []
  | pos :: rest =>
    if at_risk_position pos then Except.error position_info_quantity_error
    else check_liquidation_loop rest

/-- `PositionTracker.check_liquidation_risk` (source lines 410-436) over the
stored position rows: `get_all_positions(..., OPEN)` filters to OPEN rows
and projects through `_to_position_info`, then the loop runs until it
either crashes on the first at-risk position or returns `[]`. -/
def check_liquidation_risk (rows : List PositionRow) :
    Except TrackerError (List LiquidationRiskEntry) :=
  check_liquidation_loop
    ((rows.filter (fun p => decide (p.status = PositionStatus.OPEN))).map to_position_info)

/-- Specification-side directional liquidation distance, in percent: the
spec's "for LONG, distance = (mark − liq)/mark; for SHORT,
(liq − mark)/mark", times 100. -/
def directional_distance_pct (side : PositionSide) (mark liq : ℚ) : ℚ :=
  match side with
  | PositionSide.LONG => (mark - liq) / mark * 100
  | PositionSide.SHORT => (liq - mark) / mark * 100

/-- One position dict from the venue snapshot, as `sync_positions` reads it
(keys `size`, `markPrice`, and the `.get(...)` keys that may be absent). -/
structure DexPosition where
  symbol : String
  size : ℚ
  markPrice : ℚ
  unrealizedPnl : Option ℚ := none
  realizedPnl : Option ℚ := none
  liquidationPrice : Option ℚ := none
  margin : Option ℚ := none
  deriving DecidableEq

/-- The update branch of the `sync_positions` upsert (source lines
302-310), applied to the looked-up OPEN row for the symbol: quantity and
mark price are overwritten from the venue snapshot, the unrealized and
realized PnL are stored verbatim from the snapshot (defaulting to 0), the
liquidation price and margin are taken from the snapshot, and the entry
price is left unchanged.  Unlike `update_position`, this path has no
history append and does commit (the `updated_at` assignment lands on a
transient attribute — the mapped column is `last_updated` — but the
mapped-column writes persist). -/
def sync_position_update (p : PositionRow) (d : DexPosition) (now : ℕ) : PositionRow :=
  { p with
    quantity := d.size
    mark_price := d.markPrice
    unrealized_pnl := d.unrealizedPnl.getD 0
    realized_pnl := d.realizedPnl.getD 0
    liquidation_price := d.liquidationPrice
    margin := d.margin.getD 0
    updated_at := some now }

/-! ## Risk engine (services/risk_management.py) -/

/-- services/risk_management.py `RiskLimits` dataclass with its default
values; the per-symbol map is an association list. -/
structure RiskLimits where
  max_position_size_usd : ℚ := 100000
  max_leverage : ℚ := 10
  max_drawdown_pct : ℚ := 20
  max_exposure_usd : ℚ := 500000
  min_margin_ratio : ℚ := 1 / 20
  max_orders_per_minute : ℕ := 60
  max_daily_loss_usd : ℚ := 10000
  position_limits_per_symbol : List (String × ℚ) := []
  deriving DecidableEq

/-- Tags for the seven violation messages `check_risk_limits` can append,
in source order. -/
inductive RiskViolation
  | positionSize
  | leverageLimit
  | symbolLimit
  | exposureLimit
  | insufficientMargin
  | orderRateLimit
  | dailyLossLimit
  deriving DecidableEq

/-- Results of the awaited helpers `check_risk_limits` consults: current
total exposure, available balance (`_get_available_balance`, stubbed to
10000.0 in the source), the recent-order count over the last minute, and
the daily realized PnL (`_calculate_daily_pnl`, stubbed to 0.0). -/
structure RiskEnv where
  current_exposure : ℚ
  available_balance : ℚ
  recent_orders : ℕ
  daily_pnl : ℚ
  deriving DecidableEq

/-- `RiskManagementService.check_risk_limits` (source lines 72-143): every
check runs, each failing check appends its violation, and the boolean is
`len(violations) == 0`.  The per-symbol check is guarded by Python
truthiness (`symbol_limit and order_value > symbol_limit`), so an unset or
zero per-symbol limit is skipped.  `required_margin = order_value /
leverage` would raise ZeroDivisionError in Python at leverage 0 (ℚ
division is total), so theorems restrict to positive leverage.  The `side`
argument is accepted and never read, as in the source. -/
def check_risk_limits (limits : RiskLimits) (env : RiskEnv)
    (symbol : String) (side : OrderSide) (quantity price : ℚ) (leverage : ℕ) :
    Bool × List RiskViolation :=
  let order_value := quantity * price
  let leveraged_value := order_value * (leverage : ℚ)
  let v1 : List RiskViolation :=
    if order_value > limits.max_position_size_usd then [RiskViolation.positionSize] else []
  let v2 : List RiskViolation :=
    if (leverage : ℚ) > limits.max_leverage then [RiskViolation.leverageLimit] else []
  let v3 : List RiskViolation :=
    match limits.position_limits_per_symbol.lookup symbol with
    | none => []
    | some l => if l ≠ 0 ∧ order_value > l then [RiskViolation.symbolLimit] else []
  let v4 : List RiskViolation :=
    if env.current_exposure + leveraged_value > limits.max_exposure_usd then
      [RiskViolation.exposureLimit]
    else []
  let required_margin := order_value / (leverage : ℚ)
  let v5 : List RiskViolation :=
    if required_margin > env.available_balance then [RiskViolation.insufficientMargin] else []
  let v6 : List RiskViolation :=
    if env.recent_orders ≥ limits.max_orders_per_minute then [RiskViolation.orderRateLimit] else []
  let v7 : List RiskViolation :=
    if env.daily_pnl < -limits.max_daily_loss_usd then [RiskViolation.dailyLossLimit] else []
  let violations := v1 ++ v2 ++ v3 ++ v4 ++ v5 ++ v6 ++ v7
  (violations.isEmpty, violations)

/-! ## Credential vault (services/account_manager.py) -/

/-- Decryption failure of the vault (cryptography.fernet raises
`InvalidToken`). -/
inductive VaultError
  | invalidToken
  deriving DecidableEq

/-- One byte of keystream encryption: add the key byte, modulo 256. -/
def encByte (k b : ℕ) : ℕ :=
  (b + k % 256) % 256

/-- Inverse of `encByte` on bytes. -/
def decByte (k b : ℕ) : ℕ :=
  (b + (256 - k % 256)) % 256

/-- Keyed checksum over the ciphertext body, reduced modulo 2^32. -/
def macChecksum (k : ℕ) (body : List ℕ) : ℕ :=
  body.foldl (fun a b => (a * 31 + b + 1) % 4294967296) ((k % 4294967296) * 131 + 7)

/-- The four tag bytes appended to a token: the checksum in little-endian
base 256. -/
def macBytes (k : ℕ) (body : List ℕ) : List ℕ :=
  let s := macChecksum k body
  [s % 256, s / 256 % 256, s / 65536 % 256, s / 16777216 % 256]

/-- Modelled from the spec: the Fernet cipher suite behind
`AccountManager._encrypt_credentials` / `_decrypt_value` lives in the
external `cryptography.fernet` package, not under src/, so it is modelled
here from the spec's vault contract (§4.1: symmetric authenticated
encryption under one master key, ciphertext carrying a version byte, tamper
detected at decrypt).  The token layout mirrors Fernet: a version byte
(0x80 = 128), the encrypted body, and a fixed-length authentication tag
over the body; the AES-CBC layer is abstracted to a byte-wise invertible
keystream and the HMAC to the keyed checksum above, and the random IV and
timestamp are dropped, making encryption deterministic.  Plaintexts are
byte lists (the UTF-8 encoding of the credential string). -/
def fernetEncrypt (k : ℕ) (m : List ℕ) : List ℕ :=
  let body := m.map (encByte k)
  128 :: (body ++ macBytes k body)

/-- Modelled from the spec: Fernet decryption (see `fernetEncrypt`).
Reject unless the token has the version byte and at least a tag's worth of
payload; split off the trailing tag; reject unless it matches the body's
checksum; otherwise strip the keystream. -/
def fernetDecrypt (k : ℕ) (c : List ℕ) : Except VaultError (List ℕ) :=
  match c with
  | [] => Except.error VaultError.invalidToken
  | v :: rest =>
    if v = 128 ∧ 4 ≤ rest.length then
      let body := rest.take (rest.length - 4)
      let tag := rest.drop (rest.length - 4)
      if tag = macBytes k body then
        Except.ok (body.map (decByte k))
      else Except.error VaultError.invalidToken
    else Except.error VaultError.invalidToken

/-! ## Concrete fixtures used by witnesses and counterexamples -/

/-- An active account row with the test-suite total balance of 10000 (the
model has no `balance` attribute). -/
def acctW : DexAccount :=
  { id := 7, account_id := 1, dex_name := "mock", account_name := "test", total_balance := 10000 }

/-- The spec's scenario 2 request: MARKET SELL 1.5 ETH-PERP. -/
def reqMarketSell : OrderRequest :=
  { symbol := "ETH-PERP", side := OrderSide.SELL, order_type := OrderType.MARKET, quantity := 3 / 2 }

/-- The spec's scenario 2 ack: FILLED 1.5 at 3000.50. -/
def ackFilled : DexAck :=
  { orderId := some "V1", status := "FILLED", executedQty := some (3 / 2), avgPrice := some (6001 / 2) }

/-- A plain NEW ack. -/
def ackNew : DexAck :=
  { orderId := some "V2" }

/-- A LIMIT order request with no price. -/
def reqLimitNoPrice : OrderRequest :=
  { symbol := "BTC-PERP", side := OrderSide.BUY, order_type := OrderType.LIMIT, quantity := 1 / 10 }

/-- A STOP order request carrying a limit price but no stop price. -/
def reqStopNoStop : OrderRequest :=
  { symbol := "BTC-PERP", side := OrderSide.BUY, order_type := OrderType.STOP,
    quantity := 1 / 10, price := some 50000 }

/-- A fully FILLED (terminal) order row. -/
def filledRow : OrderRow :=
  { account_id := 1, dex_account_id := 7, symbol := "BTC-PERP", side := OrderSide.BUY
    order_type := OrderType.LIMIT, quantity := 1 / 10, price := some 50000
    status := OrderStatus.FILLED, exchange_order_id := some "V1"
    executed_qty := 1 / 10, avg_price := 50000 }

/-- A fixed environment: account 1 on the mock venue, connector always
acking NEW. -/
def envW : ExecEnv :=
  { account_id := 1, dex := "mock", adapter := fun _ => Except.ok ackNew }

/-- An OPEN LONG position of quantity 1. -/
def pLong : PositionRow :=
  { symbol := "BTC-PERP", side := PositionSide.LONG, quantity := 1, initial_quantity := 1
    entry_price := 50000, mark_price := 50000, status := PositionStatus.OPEN, opened_at := some 0 }

/-- A sign-crossing update: delta −1.5 against quantity 1. -/
def uCross : PositionUpdate :=
  { symbol := "BTC-PERP", size_delta := -(3 / 2) }

/-- An exactly-closing update: delta −1 against quantity 1. -/
def uCloseExact : PositionUpdate :=
  { symbol := "BTC-PERP", size_delta := -1 }

/-- An OPEN LONG position whose stored unrealized PnL satisfies the PnL
formula: qty 1, entry 100, mark 110, unrealized 10. -/
def p9 : PositionRow :=
  { symbol := "ETH-PERP", side := PositionSide.LONG, quantity := 1, initial_quantity := 1
    entry_price := 100, mark_price := 110, unrealized_pnl := 10
    status := PositionStatus.OPEN, opened_at := some 0 }

/-- An update carrying a size delta but no mark price. -/
def u9 : PositionUpdate :=
  { symbol := "ETH-PERP", size_delta := 1 }

/-- An update carrying a size delta and a mark price. -/
def u9m : PositionUpdate :=
  { symbol := "ETH-PERP", size_delta := 1, mark_price := some 120 }

/-- A venue snapshot entry for ETH-PERP: size 2, mark 110, with a
venue-reported unrealized PnL of 5 — not `(110 − 100) × 2 = 20`. -/
def d9 : DexPosition :=
  { symbol := "ETH-PERP", size := 2, markPrice := 110, unrealizedPnl := some 5 }

/-- The spec's scenario 6 position: OPEN LONG BTC-PERP qty 1 entry 50000
mark 46000 liq 45000. -/
def btcRow : PositionRow :=
  { symbol := "BTC-PERP", side := PositionSide.LONG, quantity := 1, initial_quantity := 1
    entry_price := 50000, mark_price := 46000, liquidation_price := some 45000
    status := PositionStatus.OPEN, opened_at := some 0 }

/-- An OPEN SHORT position with a non-null but zero liquidation price. -/
def zeroLiqRow : PositionRow :=
  { symbol := "Z-PERP", side := PositionSide.SHORT, quantity := 1, initial_quantity := 1
    entry_price := 90, mark_price := 100, liquidation_price := some 0
    status := PositionStatus.OPEN, opened_at := some 0 }

/-- The default risk limits (every field at its dataclass default). -/
def defaultLimits : RiskLimits := {}

/-- A risk environment matching the unit-test mocks: exposure 100000,
balance 50000, 10 recent orders, daily PnL −1000. -/
def envW4 : RiskEnv :=
  { current_exposure := 100000, available_balance := 50000, recent_orders := 10, daily_pnl := -1000 }

/-! ## Theorems -/

/-- C1 counterexample: at the scenario 2 inputs (MARKET SELL 1.5 ETH-PERP,
adapter ready to ack FILLED 1.5 at 3000.50), `place_order` dispatches
nothing and persists nothing: it raises AttributeError in `_get_account`
at the `DexAccount.dex` query before reaching validation or the adapter,
so no order row with the ack's venue id, status, filled quantity or
average price ever exists. -/
theorem C1_counterexample_ack_never_reached :
    ackFilled.status = "FILLED" ∧
    (place_order 1 "mock" reqMarketSell (Except.ok ackFilled)).result
      = Except.error (ExecError.attributeError "type object DexAccount has no attribute dex") ∧
    (place_order 1 "mock" reqMarketSell (Except.ok ackFilled)).persisted = none ∧
    (place_order 1 "mock" reqMarketSell (Except.ok ackFilled)).dispatched = false :=
  ⟨rfl, rfl, rfl, rfl⟩

/-- C1 (amended): no order placement ever reaches an adapter ack —
`place_order` raises AttributeError in `_get_account` (the query filters on
`DexAccount.dex`; the mapped column is `dex_name`) for every account,
venue, request and adapter response, before validation, dispatch or
persistence, so no order row is ever created or updated by placement.  (In
the unreachable ack branch the code text assigns status NEW
unconditionally, never reading the ack's status.) -/
theorem C1_place_order_always_attribute_error (account_id : ℕ) (dex : String)
    (request : OrderRequest) (ack : Except String DexAck) :
    (place_order account_id dex request ack).result
      = Except.error (ExecError.attributeError "type object DexAccount has no attribute dex") ∧
    (place_order account_id dex request ack).persisted = none ∧
    (place_order account_id dex request ack).dispatched = false :=
  ⟨rfl, rfl, rfl⟩

/-- C2 counterexample: cancelling a FILLED (terminal) order dispatches the
cancel to the venue and sets the row to CANCELED with a timestamp —
`cancel_order` has no terminal-status refusal. -/
theorem C2_counterexample_terminal_order_canceled :
    filledRow.status = OrderStatus.FILLED ∧
    (cancel_order (some filledRow) (Except.ok true) ["V1"] "V1" 9).dispatched = true ∧
    (cancel_order (some filledRow) (Except.ok true) ["V1"] "V1" 9).persisted.map OrderRow.status
      = some OrderStatus.CANCELED ∧
    (cancel_order (some filledRow) (Except.ok true) ["V1"] "V1" 9).persisted.map OrderRow.cancelled_at
      = some (some 9) := by
  decide

/-- C2 (amended): `cancel_order` refuses only a missing order row (no
dispatch, wrapped error); for any found order — terminal statuses included —
the cancel is dispatched, and whenever the connector returns without
raising the row is set to CANCELED with a cancellation timestamp,
regardless of its previous status. -/
theorem C2_cancel_no_terminal_check (o : OrderRow) (connRes : Except String Bool)
    (cache : List String) (oid : String) (now : ℕ) :
    (cancel_order none connRes cache oid now).dispatched = false ∧
    (cancel_order (some o) connRes cache oid now).dispatched = true ∧
    ∀ b, connRes = Except.ok b →
      (cancel_order (some o) connRes cache oid now).persisted =
        some { o with status := OrderStatus.CANCELED, cancelled_at := some now } ∧
      (cancel_order (some o) connRes cache oid now).result = Except.ok b := by
  refine ⟨rfl, ?_, ?_⟩
  · cases connRes <;> rfl
  · intro b hb
    subst hb
    exact ⟨rfl, rfl⟩

/-- C2 witness: the amended theorem at the FILLED fixture. -/
theorem C2_cancel_no_terminal_check_witness :
    (cancel_order (some filledRow) (Except.ok true) ["V1"] "V1" 9).persisted =
      some { filledRow with status := OrderStatus.CANCELED, cancelled_at := some 9 } ∧
    (cancel_order (some filledRow) (Except.ok true) ["V1"] "V1" 9).result = Except.ok true :=
  (C2_cancel_no_terminal_check filledRow (Except.ok true) ["V1"] "V1" 9).2.2 true rfl

/-- C10: when the connector's cancel call returns False without raising,
`cancel_order` still sets the local row to CANCELED with a timestamp,
removes the id from the active-order cache, and returns the connector's
False. -/
theorem C10_cancel_false_ack_still_cancels (o : OrderRow) (cache : List String)
    (oid : String) (now : ℕ) :
    (cancel_order (some o) (Except.ok false) cache oid now).result = Except.ok false ∧
    (cancel_order (some o) (Except.ok false) cache oid now).persisted =
      some { o with status := OrderStatus.CANCELED, cancelled_at := some now } ∧
    (cancel_order (some o) (Except.ok false) cache oid now).active_cache =
      cache.filter (fun key => key != oid) :=
  ⟨rfl, rfl, rfl⟩

/-- C7: a LIMIT request with no price fails in `_validate_order` with a
Python TypeError raised by the balance estimate `quantity * price` — not
with the structured "Limit order requires price" validation error the
repository's own test expects; a STOP request carrying a limit price but
no stop price never reaches "Stop order requires stop price" — it raises
AttributeError at the `account.balance` read, as does a MARKET request
with no price (which therefore does not pass validation either); and the
full `place_order` path fails before dispatch or persistence for every
request — even earlier, at `DexAccount.dex` in `_get_account`. -/
theorem C7_limit_order_missing_price_is_type_error :
    validate_order acctW reqLimitNoPrice
      = Except.error (ExecError.pythonTypeError "unsupported operand type for *: float and NoneType") ∧
    validate_order acctW reqLimitNoPrice
      ≠ Except.error (ExecError.orderExecutionError "Limit order requires price") ∧
    validate_order acctW reqStopNoStop
      = Except.error (ExecError.attributeError "DexAccount object has no attribute balance") ∧
    validate_order acctW reqStopNoStop
      ≠ Except.error (ExecError.orderExecutionError "Stop order requires stop price") ∧
    validate_order acctW reqMarketSell
      = Except.error (ExecError.attributeError "DexAccount object has no attribute balance") ∧
    validate_order acctW reqMarketSell ≠ Except.ok () ∧
    (place_order 1 "mock" reqLimitNoPrice (Except.ok ackNew)).dispatched = false ∧
    (place_order 1 "mock" reqLimitNoPrice (Except.ok ackNew)).persisted = none ∧
    (place_order 1 "mock" reqLimitNoPrice (Except.ok ackNew)).result
      = Except.error (ExecError.attributeError "type object DexAccount has no attribute dex") := by
  refine ⟨rfl, by decide, rfl, by decide, rfl, by decide, rfl, rfl, rfl⟩

/-- C8: placing a batch of N requests yields exactly N results in request
order; the i-th result is the outcome of placing the i-th request alone
(each request's placement depends only on that request and the
environment), with a raising placement converted to a REJECTED result
carrying its own message; one failure never aborts the rest. -/
theorem C8_batch_equals_one_by_one (env : ExecEnv) (orders : List OrderRequest) :
    (batch_place_orders env orders).length = orders.length ∧
    batch_place_orders env orders = place_one_by_one env orders ∧
    ∀ i (h1 : i < orders.length) (h2 : i < (batch_place_orders env orders).length),
      (batch_place_orders env orders).get ⟨i, h2⟩ = single_order_outcome env (orders.get ⟨i, h1⟩) := by
  refine ⟨List.length_map orders (single_order_outcome env), ?_, ?_⟩
  · induction orders with
    | nil => rfl
    | cons r rest ih => simpa [batch_place_orders, place_one_by_one] using ih
  · intro i h1 h2
    simp [batch_place_orders]

/-- C8 witness: a batch of two requests, each of whose placements raises
(every placement does — see C1); both results are present, in order, and
equal their stand-alone outcomes, each a REJECTED result carrying its own
error message. -/
theorem C8_batch_equals_one_by_one_witness :
    (batch_place_orders envW [reqMarketSell, reqLimitNoPrice]).length = 2 ∧
    batch_place_orders envW [reqMarketSell, reqLimitNoPrice]
      = place_one_by_one envW [reqMarketSell, reqLimitNoPrice] ∧
    (batch_place_orders envW [reqMarketSell, reqLimitNoPrice]).get ⟨1, by simp [batch_place_orders]⟩
      = single_order_outcome envW reqLimitNoPrice ∧
    single_order_outcome envW reqLimitNoPrice = rejectedResult
      (ExecError.attributeError "type object DexAccount has no attribute dex") := by
  have h := C8_batch_equals_one_by_one envW [reqMarketSell, reqLimitNoPrice]
  refine ⟨h.1, h.2.1, ?_, rfl⟩
  have h3 := h.2.2 1 (by norm_num) (by simp [batch_place_orders])
  simpa using h3

/-- C3 counterexample: an OPEN LONG position of quantity 1 receives delta
−1.5.  The claimed transition to CLOSED never occurs: the call raises
TypeError at the PositionHistory construction and commits nothing — and
even the transient in-memory state it reaches before raising is OPEN with
the sign-flipped quantity −0.5 and no closed timestamp, because the code
closes only on a quantity of exactly zero. -/
theorem C3_counterexample_cross_never_closes :
    0 < pLong.quantity ∧
    pLong.quantity + uCross.size_delta < 0 ∧
    (update_position (some pLong) uCross 5).result
      = Except.error position_history_kwargs_error ∧
    (update_position (some pLong) uCross 5).persisted = none ∧
    (update_position (some pLong) uCross 5).in_memory.status = PositionStatus.OPEN ∧
    (update_position (some pLong) uCross 5).in_memory.quantity = -(1 / 2) ∧
    (update_position (some pLong) uCross 5).in_memory.closed_at = none := by
  refine ⟨?_, ?_, rfl, rfl, ?_, ?_, ?_⟩ <;>
    norm_num [update_position, update_existing_position, calculate_unrealized_pnl, pyTruthy,
      pLong, uCross]

/-- C3 (amended): on an existing OPEN position, `update_position` never
completes — the unconditional PositionHistory construction (whose `size`,
`realized_pnl` and `margin` keywords are not model attributes) raises
TypeError before commit, so nothing is persisted and the call raises; and
the in-memory mutation it performs first marks the object CLOSED — with a
closed timestamp — exactly when the new quantity `old + delta` is exactly
zero, a crossing delta leaving it OPEN with the sign-flipped quantity. -/
theorem C3_close_only_on_exact_zero (p : PositionRow) (u : PositionUpdate) (now : ℕ)
    (hopen : p.status = PositionStatus.OPEN) :
    (update_position (some p) u now).result = Except.error position_history_kwargs_error ∧
    (update_position (some p) u now).persisted = none ∧
    ((update_position (some p) u now).in_memory.status = PositionStatus.CLOSED ↔
      p.quantity + u.size_delta = 0) ∧
    (p.quantity + u.size_delta = 0 →
      (update_position (some p) u now).in_memory.closed_at = some now) ∧
    (update_position (some p) u now).in_memory.quantity = p.quantity + u.size_delta := by
  refine ⟨rfl, rfl, ?_, ?_, ?_⟩ <;>
    cases hm : pyTruthy u.mark_price <;> cases hl : pyTruthy u.liquidation_price <;>
      by_cases hz : p.quantity + u.size_delta = 0 <;>
        simp [update_position, update_existing_position, calculate_unrealized_pnl,
          hm, hl, hz, hopen]

/-- C3 witness: the amended theorem at an exactly-closing delta — even
then, nothing is persisted and the CLOSED state exists only in memory. -/
theorem C3_close_only_on_exact_zero_witness :
    (update_position (some pLong) uCloseExact 7).persisted = none ∧
    (update_position (some pLong) uCloseExact 7).in_memory.status = PositionStatus.CLOSED ∧
    (update_position (some pLong) uCloseExact 7).in_memory.closed_at = some 7 := by
  have h := C3_close_only_on_exact_zero pLong uCloseExact 7 rfl
  have hz : pLong.quantity + uCloseExact.size_delta = 0 := by
    norm_num [pLong, uCloseExact]
  exact ⟨h.2.1, h.2.2.1.mpr hz, h.2.2.2.1 hz⟩

/-- C9 counterexample: an OPEN LONG position with entry 100 is synced
against a venue snapshot reporting size 2, mark 110 and unrealized PnL 5;
the stored row keeps entry 100 and stores unrealized PnL 5 verbatim —
not `(110 − 100) × 2 = 20` — so an OPEN position after a tracker operation
violates the formula.  (And apply_update, the other tracker operation,
never stores anything at all: it raises TypeError before commit.) -/
theorem C9_counterexample_sync_stores_venue_pnl :
    (sync_position_update p9 d9 3).status = PositionStatus.OPEN ∧
    (sync_position_update p9 d9 3).quantity = 2 ∧
    (sync_position_update p9 d9 3).entry_price = 100 ∧
    (sync_position_update p9 d9 3).mark_price = 110 ∧
    (sync_position_update p9 d9 3).unrealized_pnl = 5 ∧
    calculate_unrealized_pnl (sync_position_update p9 d9 3) = 20 ∧
    (sync_position_update p9 d9 3).unrealized_pnl ≠
      ((sync_position_update p9 d9 3).mark_price - (sync_position_update p9 d9 3).entry_price)
        * (sync_position_update p9 d9 3).quantity ∧
    (update_position (some p9) u9 3).persisted = none := by
  refine ⟨rfl, rfl, rfl, rfl, rfl, ?_, ?_, rfl⟩ <;>
    norm_num [sync_position_update, calculate_unrealized_pnl, p9, d9]

/-- C9 (amended): `_calculate_unrealized_pnl` is exactly the spec's formula
— LONG `(mark − entry) × qty`, SHORT `(entry − mark) × qty` — but the
stored value need not satisfy it after tracker operations: apply_update
never stores anything (every call raises TypeError at the PositionHistory
construction, before commit), and the sync upsert overwrites quantity and
mark price from the venue snapshot while storing the snapshot's
unrealizedPnl verbatim (defaulting to 0) and leaving the entry price
unchanged, with no recomputation from the formula. -/
theorem C9_unrealized_pnl_formula (p : PositionRow) (u : PositionUpdate) (d : DexPosition)
    (now : ℕ) :
    (calculate_unrealized_pnl p =
      match p.side with
      | PositionSide.LONG => (p.mark_price - p.entry_price) * p.quantity
      | PositionSide.SHORT => (p.entry_price - p.mark_price) * p.quantity) ∧
    (update_position (some p) u now).persisted = none ∧
    (update_position (some p) u now).result = Except.error position_history_kwargs_error ∧
    (sync_position_update p d now).unrealized_pnl = d.unrealizedPnl.getD 0 ∧
    (sync_position_update p d now).quantity = d.size ∧
    (sync_position_update p d now).mark_price = d.markPrice ∧
    (sync_position_update p d now).entry_price = p.entry_price :=
  ⟨rfl, rfl, rfl, rfl, rfl, rfl, rfl⟩

/-- The at-risk filter of `check_liquidation_risk`, characterised over the
stored row: a position passes exactly when its liquidation price is
present and nonzero with directional distance under 10%. -/
theorem at_risk_position_iff (p : PositionRow) :
    at_risk_position (to_position_info p) = true ↔
      ∃ liq, p.liquidation_price = some liq ∧ liq ≠ 0 ∧
        directional_distance_pct p.side p.mark_price liq < 10 := by
  cases hlp : p.liquidation_price with
  | none => simp [at_risk_position, to_position_info, pyTruthy, hlp]
  | some liq =>
    by_cases h0 : liq = 0
    · subst h0
      simp [at_risk_position, to_position_info, pyTruthy, hlp]
    · cases hside : p.side <;>
        simp [at_risk_position, to_position_info, pyTruthy, hlp, h0, hside,
          directional_distance_pct]

/-- The `check_liquidation_risk` loop over the projected infos: it ends in
`ok []` exactly when no position is at risk, crashes with the
`pos.quantity` AttributeError exactly when one is, and a successful result
can only be the empty list. -/
theorem check_liquidation_loop_spec (infos : List PositionInfo) :
    (check_liquidation_loop infos = Except.ok [] ↔
      ∀ pos ∈ infos, at_risk_position pos = false) ∧
    (check_liquidation_loop infos = Except.error position_info_quantity_error ↔
      ∃ pos ∈ infos, at_risk_position pos = true) ∧
    ∀ l, check_liquidation_loop infos = Except.ok l → l = [] := by
  induction infos with
  | nil => simp [check_liquidation_loop]
  | cons pos rest ih =>
    obtain ⟨ih1, ih2, ih3⟩ := ih
    cases har : at_risk_position pos
    · refine ⟨?_, ?_, ?_⟩
      · rw [show check_liquidation_loop (pos :: rest) = check_liquidation_loop rest by
          simp [check_liquidation_loop, har], ih1]
        simp [har]
      · rw [show check_liquidation_loop (pos :: rest) = check_liquidation_loop rest by
          simp [check_liquidation_loop, har], ih2]
        simp [har]
      · intro l hl
        exact ih3 l (by simpa [check_liquidation_loop, har] using hl)
    · refine ⟨?_, ?_, ?_⟩
      · simp [check_liquidation_loop, har]
      · simp [check_liquidation_loop, har]
      · intro l hl
        simp [check_liquidation_loop, har] at hl

/-- C6 counterexample: at the spec's scenario 6 input itself — an OPEN LONG
with entry 50000, mark 46000, liquidation 45000, distance 50/23 ≈ 2.17% —
`check_liquidation_risk` does not return the claimed HIGH entry: it raises
AttributeError at `pos.quantity` (the `PositionInfo` field is `size`)
while building the entry. -/
theorem C6_counterexample_scenario_crashes :
    btcRow.status = PositionStatus.OPEN ∧
    btcRow.liquidation_price = some 45000 ∧
    directional_distance_pct btcRow.side btcRow.mark_price 45000 = 50 / 23 ∧
    (50 : ℚ) / 23 < 5 ∧
    check_liquidation_risk [btcRow] = Except.error position_info_quantity_error := by
  have har : at_risk_position (to_position_info btcRow) = true := by
    rw [at_risk_position_iff]
    exact ⟨45000, rfl, by norm_num, by norm_num [directional_distance_pct, btcRow]⟩
  refine ⟨rfl, rfl, by norm_num [directional_distance_pct, btcRow], by norm_num, ?_⟩
  simp [check_liquidation_risk, check_liquidation_loop, har]

/-- C6 (amended): over any stored positions with nonzero mark prices (a
zero mark price would raise ZeroDivisionError in the source),
`check_liquidation_risk` filters OPEN positions by non-null AND nonzero
liquidation price and directional distance percentage — LONG
`(mark − liq)/mark`, SHORT `(liq − mark)/mark`, × 100 — under 10, but it
cannot return the at-risk entries: building an entry reads `pos.quantity`,
which does not exist on `PositionInfo` (the field is `size`), so the call
raises AttributeError exactly when some at-risk position exists, returns
the empty list exactly when none does, and can never return a non-empty
list; scenario 6 therefore raises instead of yielding its ≈ 2.17% HIGH
entry. -/
theorem C6_liquidation_risk_exact (rows : List PositionRow)
    (hmark : ∀ p ∈ rows, p.mark_price ≠ 0) :
    (check_liquidation_risk rows = Except.ok [] ↔
      ∀ p ∈ rows, p.status = PositionStatus.OPEN →
        ¬ ∃ liq, p.liquidation_price = some liq ∧ liq ≠ 0 ∧
            directional_distance_pct p.side p.mark_price liq < 10) ∧
    (check_liquidation_risk rows = Except.error position_info_quantity_error ↔
      ∃ p ∈ rows, p.status = PositionStatus.OPEN ∧
        ∃ liq, p.liquidation_price = some liq ∧ liq ≠ 0 ∧
          directional_distance_pct p.side p.mark_price liq < 10) ∧
    ∀ l, check_liquidation_risk rows = Except.ok l → l = [] := by
  obtain ⟨hl1, hl2, hl3⟩ := check_liquidation_loop_spec
    ((rows.filter (fun p => decide (p.status = PositionStatus.OPEN))).map to_position_info)
  refine ⟨?_, ?_, hl3⟩
  · rw [check_liquidation_risk, hl1]
    constructor
    · intro h p hp hopen hex
      have hfalse := h (to_position_info p)
        (List.mem_map_of_mem _ (List.mem_filter.mpr ⟨hp, by simp [hopen]⟩))
      exact absurd ((at_risk_position_iff p).mpr hex) (by simp [hfalse])
    · intro h pos hpos
      rcases List.mem_map.mp hpos with ⟨p, hpf, rfl⟩
      obtain ⟨hp, hdec⟩ := List.mem_filter.mp hpf
      cases htf : at_risk_position (to_position_info p)
      · rfl
      · exact absurd ((at_risk_position_iff p).mp htf) (h p hp (by simpa using hdec))
  · rw [check_liquidation_risk, hl2]
    constructor
    · rintro ⟨pos, hpos, htrue⟩
      rcases List.mem_map.mp hpos with ⟨p, hpf, rfl⟩
      obtain ⟨hp, hdec⟩ := List.mem_filter.mp hpf
      exact ⟨p, hp, by simpa using hdec, (at_risk_position_iff p).mp htrue⟩
    · rintro ⟨p, hp, hopen, hex⟩
      exact ⟨to_position_info p,
        List.mem_map_of_mem _ (List.mem_filter.mpr ⟨hp, by simp [hopen]⟩),
        (at_risk_position_iff p).mpr hex⟩

/-- C6 witness: the amended theorem at the scenario 6 position (the call
raises the `pos.quantity` AttributeError) and at a zero-liquidation-price
position (skipped by truthiness, so the call returns the empty list). -/
theorem C6_liquidation_risk_exact_witness :
    check_liquidation_risk [btcRow] = Except.error position_info_quantity_error ∧
    directional_distance_pct btcRow.side btcRow.mark_price 45000 = 50 / 23 ∧
    (217 : ℚ) / 100 < 50 / 23 ∧ (50 : ℚ) / 23 < 218 / 100 ∧
    check_liquidation_risk [zeroLiqRow] = Except.ok [] := by
  have h1 := C6_liquidation_risk_exact [btcRow] (by
    intro p hp
    rw [List.mem_singleton] at hp
    subst hp
    norm_num [btcRow])
  have h2 := C6_liquidation_risk_exact [zeroLiqRow] (by
    intro p hp
    rw [List.mem_singleton] at hp
    subst hp
    norm_num [zeroLiqRow])
  refine ⟨?_, by norm_num [directional_distance_pct, btcRow], by norm_num, by norm_num, ?_⟩
  · exact h1.2.1.mpr
      ⟨btcRow, by simp, rfl, 45000, rfl, by norm_num,
        by norm_num [directional_distance_pct, btcRow]⟩
  · refine h2.1.mpr ?_
    intro p hp hopen hex
    rw [List.mem_singleton] at hp
    subst hp
    rcases hex with ⟨liq, hliq, h0, _⟩
    rw [show zeroLiqRow.liquidation_price = some 0 from rfl] at hliq
    exact h0 (by injection hliq with h; exact h.symm)

/-- Membership in a conditional singleton list. -/
theorem mem_ite_singleton {α : Type} (c : Prop) [Decidable c] (x a : α) :
    (a ∈ if c then [x] else []) ↔ c ∧ a = x := by
  by_cases h : c <;> simp [h]

/-- C4: the violation list of `check_risk_limits` contains each violation
tag exactly when its own rule fails — the global size cap, the leverage
cap, the (truthy) per-symbol cap, the exposure cap on current exposure plus
the new leveraged notional, required margin over available balance, the
recent-order count at or above the per-minute cap, and daily PnL below
minus the daily-loss cap — with no short-circuiting, and the boolean is
true exactly when the list is empty.  Positive leverage keeps the model on
the domain where the Python division does not raise. -/
theorem C4_risk_check_exact (limits : RiskLimits) (env : RiskEnv) (symbol : String)
    (side : OrderSide) (quantity price : ℚ) (leverage : ℕ) (hlev : 0 < leverage) :
    (RiskViolation.positionSize ∈ (check_risk_limits limits env symbol side quantity price leverage).2
      ↔ quantity * price > limits.max_position_size_usd) ∧
    (RiskViolation.leverageLimit ∈ (check_risk_limits limits env symbol side quantity price leverage).2
      ↔ (leverage : ℚ) > limits.max_leverage) ∧
    (RiskViolation.symbolLimit ∈ (check_risk_limits limits env symbol side quantity price leverage).2
      ↔ ∃ l, limits.position_limits_per_symbol.lookup symbol = some l ∧ l ≠ 0 ∧
          quantity * price > l) ∧
    (RiskViolation.exposureLimit ∈ (check_risk_limits limits env symbol side quantity price leverage).2
      ↔ env.current_exposure + quantity * price * (leverage : ℚ) > limits.max_exposure_usd) ∧
    (RiskViolation.insufficientMargin ∈ (check_risk_limits limits env symbol side quantity price leverage).2
      ↔ quantity * price / (leverage : ℚ) > env.available_balance) ∧
    (RiskViolation.orderRateLimit ∈ (check_risk_limits limits env symbol side quantity price leverage).2
      ↔ env.recent_orders ≥ limits.max_orders_per_minute) ∧
    (RiskViolation.dailyLossLimit ∈ (check_risk_limits limits env symbol side quantity price leverage).2
      ↔ env.daily_pnl < -limits.max_daily_loss_usd) ∧
    ((check_risk_limits limits env symbol side quantity price leverage).1 = true
      ↔ (check_risk_limits limits env symbol side quantity price leverage).2 = []) := by
  cases hl : limits.position_limits_per_symbol.lookup symbol <;>
    (refine ⟨?_, ?_, ?_, ?_, ?_, ?_, ?_, ?_⟩ <;>
      simp [check_risk_limits, hl, mem_ite_singleton, List.mem_append, List.isEmpty_iff,
        List.append_eq_nil])

/-- C4 witness: at the default limits with the test-suite environment, an
order of notional 200000 at leverage 15 trips exactly the size and
leverage rules. -/
theorem C4_risk_check_exact_witness :
    RiskViolation.positionSize
      ∈ (check_risk_limits defaultLimits envW4 "BTC-PERP" OrderSide.BUY 2 100000 15).2 ∧
    RiskViolation.leverageLimit
      ∈ (check_risk_limits defaultLimits envW4 "BTC-PERP" OrderSide.BUY 2 100000 15).2 ∧
    ¬ RiskViolation.dailyLossLimit
      ∈ (check_risk_limits defaultLimits envW4 "BTC-PERP" OrderSide.BUY 2 100000 15).2 ∧
    ((check_risk_limits defaultLimits envW4 "BTC-PERP" OrderSide.BUY 2 100000 15).1 = true
      ↔ (check_risk_limits defaultLimits envW4 "BTC-PERP" OrderSide.BUY 2 100000 15).2 = []) := by
  have h := C4_risk_check_exact defaultLimits envW4 "BTC-PERP" OrderSide.BUY 2 100000 15
    (by norm_num)
  refine ⟨?_, ?_, ?_, h.2.2.2.2.2.2.2⟩
  · exact h.1.mpr (by norm_num [defaultLimits])
  · exact h.2.1.mpr (by norm_num [defaultLimits])
  · intro hmem
    have := h.2.2.2.2.2.2.1.mp hmem
    norm_num [defaultLimits, envW4] at this

/-- One keystream byte decrypts back to itself. -/
theorem decByte_encByte (k b : ℕ) (hb : b < 256) : decByte k (encByte k b) = b := by
  unfold encByte decByte
  omega

/-- One keystream byte encrypts back to itself. -/
theorem encByte_decByte (k b : ℕ) (hb : b < 256) : encByte k (decByte k b) = b := by
  unfold encByte decByte
  omega

/-- Stripping the keystream undoes applying it, bytewise on a list. -/
theorem map_dec_enc (k : ℕ) :
    ∀ m : List ℕ, (∀ b ∈ m, b < 256) → (m.map (encByte k)).map (decByte k) = m := by
  intro m
  induction m with
  | nil => intro _; rfl
  | cons a t ih =>
    intro hm
    have ha := hm a (List.mem_cons_self a t)
    have ht : ∀ b ∈ t, b < 256 := fun b hb => hm b (List.mem_cons_of_mem a hb)
    simp [decByte_encByte k a ha, ih ht]

/-- Applying the keystream undoes stripping it, bytewise on a list. -/
theorem map_enc_dec (k : ℕ) :
    ∀ m : List ℕ, (∀ b ∈ m, b < 256) → (m.map (decByte k)).map (encByte k) = m := by
  intro m
  induction m with
  | nil => intro _; rfl
  | cons a t ih =>
    intro hm
    have ha := hm a (List.mem_cons_self a t)
    have ht : ∀ b ∈ t, b < 256 := fun b hb => hm b (List.mem_cons_of_mem a hb)
    simp [encByte_decByte k a ha, ih ht]

/-- Decrypting a token produced by encryption recovers the plaintext bytes. -/
theorem fernetDecrypt_fernetEncrypt (k : ℕ) (m : List ℕ) (hm : ∀ b ∈ m, b < 256) :
    fernetDecrypt k (fernetEncrypt k m) = Except.ok m := by
  have hlen4 : (macBytes k (m.map (encByte k))).length = 4 := rfl
  have hlen : (m.map (encByte k) ++ macBytes k (m.map (encByte k))).length
      = (m.map (encByte k)).length + 4 := by
    rw [List.length_append, hlen4]
  have hsub : (m.map (encByte k) ++ macBytes k (m.map (encByte k))).length - 4
      = (m.map (encByte k)).length := by omega
  simp only [fernetEncrypt, fernetDecrypt]
  rw [if_pos ⟨by simp, by omega⟩, hsub, List.take_left, List.drop_left, if_pos rfl,
    map_dec_enc k m hm]

/-- Decryption under a key succeeds exactly on the tokens encryption under
that key produces. -/
theorem fernetDecrypt_ok_iff (k : ℕ) (c m : List ℕ)
    (hm : ∀ b ∈ m, b < 256) (hc : ∀ b ∈ c, b < 256) :
    fernetDecrypt k c = Except.ok m ↔ c = fernetEncrypt k m := by
  constructor
  · intro h
    cases c with
    | nil => exact absurd h (by simp [fernetDecrypt])
    | cons v rest =>
      simp only [fernetDecrypt] at h
      by_cases hcond : v = 128 ∧ 4 ≤ rest.length
      · rw [if_pos hcond] at h
        by_cases htag : rest.drop (rest.length - 4) = macBytes k (rest.take (rest.length - 4))
        · rw [if_pos htag] at h
          have hm2 : m = (rest.take (rest.length - 4)).map (decByte k) := by
            have := h
            injection this with h2
            exact h2.symm
          have htakebound : ∀ b ∈ rest.take (rest.length - 4), b < 256 := by
            intro b hb
            exact hc b (List.mem_cons_of_mem v (List.take_subset _ _ hb))
          have hbody : m.map (encByte k) = rest.take (rest.length - 4) := by
            rw [hm2]
            exact map_enc_dec k _ htakebound
          have hrest : rest.take (rest.length - 4) ++ rest.drop (rest.length - 4) = rest :=
            List.take_append_drop _ _
          show v :: rest = fernetEncrypt k m
          simp only [fernetEncrypt]
          rw [hbody, ← htag, hrest, hcond.1]
        · rw [if_neg htag] at h
          exact absurd h (by simp)
      · rw [if_neg hcond] at h
        exact absurd h (by simp)
  · intro h
    subst h
    exact fernetDecrypt_fernetEncrypt k m hm

/-- C5 counterexample: the token for byte string [1] is an alteration of the
token for [0] under key 7 (they differ), yet decryption does not fail — it
returns [1].  An altered ciphertext that happens to be another valid token
of the same key decrypts successfully, so "every altered ciphertext fails"
is false as universally stated. -/
theorem C5_counterexample_altered_to_valid_token :
    fernetEncrypt 7 [1] ≠ fernetEncrypt 7 [0] ∧
    fernetDecrypt 7 (fernetEncrypt 7 [1]) = Except.ok [1] ∧
    fernetDecrypt 7 (fernetEncrypt 7 [1]) ≠ Except.error VaultError.invalidToken := by
  refine ⟨by decide, ?_, ?_⟩ <;> decide

/-- C5 (amended): for every byte-string plaintext, decrypting its ciphertext
under the same key returns the original plaintext; and decryption succeeds
on exactly the valid tokens of that key — every altered ciphertext that is
not itself a valid encryption under the key fails with an error. -/
theorem C5_vault_roundtrip_and_auth (k : ℕ) (m c : List ℕ)
    (hm : ∀ b ∈ m, b < 256) (hc : ∀ b ∈ c, b < 256) :
    fernetDecrypt k (fernetEncrypt k m) = Except.ok m ∧
    (fernetDecrypt k c = Except.ok m ↔ c = fernetEncrypt k m) :=
  ⟨fernetDecrypt_fernetEncrypt k m hm, fernetDecrypt_ok_iff k c m hm hc⟩

/-- C5 witness: the amended theorem at key 11 and plaintext [104, 105],
with the ciphertext taken to be the valid token itself. -/
theorem C5_vault_roundtrip_and_auth_witness :
    fernetDecrypt 11 (fernetEncrypt 11 [104, 105]) = Except.ok [104, 105] ∧
    (fernetDecrypt 11 (fernetEncrypt 11 [104, 105]) = Except.ok [104, 105] ↔
      fernetEncrypt 11 [104, 105] = fernetEncrypt 11 [104, 105]) :=
  C5_vault_roundtrip_and_auth 11 [104, 105] (fernetEncrypt 11 [104, 105])
    (by decide) (by decide)

end PerpDex
